import Mathlib

/-!
Verification of the `apikeyrotator` repository against its specification.

The Python sources are shallowly embedded as Lean definitions:

* `apikeyrotator/error_classifier.py`  → `ErrorClassifier` namespace
* `apikeyrotator/rotation_strategies.py` → `RotationStrategies` namespace
* `apikeyrotator/middleware/caching.py` → `Caching` namespace
* `apikeyrotator/core/rotator.py` (synchronous `APIKeyRotator.request`)
  → `Rotator` namespace

Python dictionaries with insertion order (`dict`, `collections.OrderedDict`)
are embedded as association lists `List (String × α)`; timestamps
(`time.time()`, float seconds) are embedded as rationals `ℚ`; exceptions are
embedded as an explicit error type `PyError` threaded through `Except`.
-/

/-- Model of Python exception values that can escape the functions under
study.  `requestException` models `requests.RequestException` and its
subclasses (the transport-level exceptions); the two Booleans record whether
the instance is a `requests.exceptions.ConnectionError` and/or a
`requests.exceptions.Timeout` — `isinstance` checks, so e.g. `ConnectTimeout`
sets both. -/
structure TransportExc where
  isConnectionError : Bool
  isTimeout : Bool
deriving DecidableEq, Repr

/-- Errors raised by the embedded Python code. -/
inductive PyError where
  /-- Python IndexError (e.g. `list[i]` out of range). -/
  | indexError
  /-- Python NameError (reference to an unbound name). -/
  | nameError (name : String)
  /-- a bare `Exception(msg)`. -/
  | genericException (msg : String)
  /-- The `AllKeysExhaustedError(msg)` exception from `core/exceptions`. -/
  | allKeysExhausted (msg : String)
  /-- Python `ValueError(msg)`. -/
  | valueError (msg : String)
  /-- a propagated `requests.RequestException`. -/
  | requestException (e : TransportExc)
deriving DecidableEq, Repr

namespace ErrorClassifier

/-- The ErrorType enum from `apikeyrotator/error_classifier.py`. -/
inductive ErrorType where
  | rate_limit
  | temporary
  | permanent
  | network
  | unknown
deriving DecidableEq, Repr

/-- Embedding of `ErrorClassifier.classify_error` from
`apikeyrotator/error_classifier.py` (lines 13–42).  A response is modelled by
its `status_code`; the classifier reads nothing else from it.  The
`if exception:` truthiness test succeeds for every exception instance, so it
is `exception is not None` here. -/
def classify_error (response : Option Nat := none)
    (exception : Option TransportExc := none) : ErrorType :=
  match exception with
  | some e =>
      if e.isConnectionError || e.isTimeout then ErrorType.network
      else ErrorType.unknown
  | none =>
      match response with
      | none => ErrorType.unknown
      | some status_code =>
          if status_code == 429 then ErrorType.rate_limit
          else if status_code == 500 || status_code == 502 ||
                  status_code == 503 || status_code == 504 then
            ErrorType.temporary
          else if status_code == 401 || status_code == 403 then
            ErrorType.permanent
          else if 400 ≤ status_code && status_code < 500 then
            ErrorType.permanent
          else ErrorType.unknown

/-- The classifier mapping exactly as the specification words it
(spec §4.1, claim C4), written independently of the source for the
refinement proof below. -/
def classifySpecModel (response : Option Nat) (exception : Option TransportExc) :
    ErrorType :=
  match exception with
  | some e =>
      if e.isConnectionError || e.isTimeout then ErrorType.network
      else ErrorType.unknown
  | none =>
      match response with
      | none => ErrorType.unknown
      | some s =>
          if s = 429 then ErrorType.rate_limit
          else if s ∈ [500, 502, 503, 504] then ErrorType.temporary
          else if s ∈ [401, 403] then ErrorType.permanent
          else if 400 ≤ s ∧ s < 500 then ErrorType.permanent
          else ErrorType.unknown

end ErrorClassifier

/-- Association-list operations embedding Python `dict` (insertion-ordered,
unique keys).  `dictGet d k` is `d.get(k)` / `d[k]` lookup, `dictSet d k v`
is `d[k] = v` (updates in place when the key exists — keeping its position —
and appends otherwise), `dictDel d k` is `del d[k]`. -/
def dictGet {α : Type} : List (String × α) → String → Option α
  | [], _ => none
  | (k', v) :: t, k => if k' = k then some v else dictGet t k

/-- Python `d[k] = v` on an insertion-ordered dict: update in place, else
append. -/
def dictSet {α : Type} (d : List (String × α)) (k : String) (v : α) :
    List (String × α) :=
  if (dictGet d k).isSome then
    d.map (fun p => if p.1 = k then (k, v) else p)
  else d ++ [(k, v)]

/-- Python `del d[k]` (removes the unique binding of `k`). -/
def dictDel {α : Type} : List (String × α) → String → List (String × α)
  | [], _ => []
  | (k', v) :: t, k => if k' = k then t else (k', v) :: dictDel t k

namespace RotationStrategies

/-- The KeyMetrics record from `apikeyrotator/rotation_strategies.py`
(lines 13–22).  `requests_remaining = none` models the initial
`float('inf')`. -/
structure KeyMetrics where
  key : String
  success_rate : ℚ := 1
  avg_response_time : ℚ := 0
  last_used : ℚ := 0
  rate_limit_reset : ℚ := 0
  requests_remaining : Option ℚ := none
  consecutive_failures : Nat := 0
  is_healthy : Bool := true
deriving DecidableEq, Repr

/-- State of `RoundRobinStrategy` (`rotation_strategies.py` lines 58–66):
the key list passed to the constructor and the cursor `_current_index`
(initialised to 0 by `__init__`). -/
structure RoundRobinStrategy where
  _keys : List String
  _current_index : Nat
deriving DecidableEq, Repr

/-- Embedding of `RoundRobinStrategy.get_next_key` (lines 63–66):
`key = self._keys[self._current_index]` — which raises `IndexError` when the
index is out of range, in particular on an empty pool — then
`self._current_index = (self._current_index + 1) % len(self._keys)`.
The metrics snapshot argument is ignored by this strategy (Python is
dynamically typed, hence the polymorphic metrics value type). -/
def RoundRobinStrategy.get_next_key {α : Type} (s : RoundRobinStrategy)
    (_current_key_metrics : List (String × α)) :
    Except PyError (String × RoundRobinStrategy) :=
  match s._keys.get? s._current_index with
  | none => Except.error PyError.indexError
  | some key =>
      Except.ok (key, ⟨s._keys, (s._current_index + 1) % s._keys.length⟩)

/-- State of `HealthBasedStrategy` (`rotation_strategies.py` lines 68–94). -/
structure HealthBasedStrategy where
  _keys : List String
  failure_threshold : Nat := 3
  health_check_interval : ℚ := 300
  _key_metrics : List (String × KeyMetrics)
deriving DecidableEq, Repr

/-- The `HealthBasedStrategy.__init__` constructor: internal metrics dict
`{key: KeyMetrics(key) for key in keys}`. -/
def HealthBasedStrategy.init (keys : List String) (failure_threshold : Nat := 3)
    (health_check_interval : ℚ := 300) : HealthBasedStrategy :=
  { _keys := keys
    failure_threshold := failure_threshold
    health_check_interval := health_check_interval
    _key_metrics := keys.map (fun k => (k, { key := k })) }

/-- Embedding of `HealthBasedStrategy.get_next_key` (lines 75–94).  It merges
the caller's metrics snapshot into the internal dict, filters healthy keys
(healthy, or idle longer than `health_check_interval`), and on an empty
healthy set marks every key healthy again; if the pool itself is empty it
raises the bare `Exception("No keys available for rotation.")`.  With a
non-empty healthy set the source evaluates `random.choice(healthy_keys)` —
but `rotation_strategies.py` never imports `random`, so that line raises
`NameError: name 'random' is not defined` before any key is returned. -/
def HealthBasedStrategy.get_next_key (s : HealthBasedStrategy)
    (current_key_metrics : List (String × KeyMetrics)) (now : ℚ) :
    Except PyError (String × HealthBasedStrategy) :=
  let km := current_key_metrics.foldl (fun d p => dictSet d p.1 p.2) s._key_metrics
  let healthy_keys := (km.filter (fun p =>
      p.2.is_healthy || decide (now - p.2.last_used > s.health_check_interval))).map Prod.fst
  if healthy_keys.isEmpty then
    let km2 := km.map (fun p => (p.1, { p.2 with is_healthy := true }))
    let healthy_keys2 := km2.map Prod.fst
    if healthy_keys2.isEmpty then
      Except.error (PyError.genericException "No keys available for rotation.")
    else
      Except.error (PyError.nameError "random")
  else
    Except.error (PyError.nameError "random")

/-- Iterated round-robin selection: `rrRun s n` performs `n + 1` successive
`get_next_key` calls starting from `s` and returns the last call's result
(selected key and updated strategy state). -/
def rrRun (s : RoundRobinStrategy) : Nat → Except PyError (String × RoundRobinStrategy)
  | 0 => s.get_next_key ([] : List (String × Unit))
  | n + 1 =>
      match s.get_next_key ([] : List (String × Unit)) with
      | Except.ok (_, s') => rrRun s' n
      | Except.error e => Except.error e

/-- Discriminator: is this error an exhaustion error (`AllKeysExhaustedError`,
the repository's ExhaustedError)? -/
def PyErrorIsExhausted : PyError → Bool
  | PyError.allKeysExhausted _ => true
  | _ => false

end RotationStrategies

/-- ASCII model of Python `str.upper` on one character. -/
def pyCharUpper (c : Char) : Char :=
  if c.isLower then Char.ofNat (c.toNat - 32) else c

/-- Model of Python `str.upper()`. -/
def pyUpper (s : String) : String := String.mk (s.data.map pyCharUpper)

/-- ASCII model of Python `str.lower` on one character. -/
def pyCharLower (c : Char) : Char :=
  if c.isUpper then Char.ofNat (c.toNat + 32) else c

/-- Model of Python `str.lower()`. -/
def pyLower (s : String) : String := String.mk (s.data.map pyCharLower)

/-- Model of Python `str.strip()`: drop leading and trailing whitespace. -/
def pyStrip (s : String) : String :=
  String.mk (((s.data.dropWhile Char.isWhitespace).reverse.dropWhile
    Char.isWhitespace).reverse)

/-- Substring test on character lists (model of Python `needle in hay`). -/
def containsSub (needle : List Char) : List Char → Bool
  | [] => needle.isEmpty
  | c :: t => needle.isPrefixOf (c :: t) || containsSub needle t

/-- Model of Python `needle in hay` on strings. -/
def strContains (hay needle : String) : Bool := containsSub needle.data hay.data

/-- Lexicographic comparison of character lists (Python string `<=`). -/
def charListLe : List Char → List Char → Bool
  | [], _ => true
  | _ :: _, [] => false
  | a :: as, b :: bs => if a = b then charListLe as bs else decide (a < b)

/-- Insert a pair into a key-sorted list, keeping ascending key order. -/
def insertSortedByKey (p : String × String) :
    List (String × String) → List (String × String)
  | [] => [p]
  | q :: t =>
      if charListLe p.1.data q.1.data then p :: q :: t
      else q :: insertSortedByKey p t

/-- Sort an association list by key, ascending (Python `sorted`, stable). -/
def sortByKey (l : List (String × String)) : List (String × String) :=
  l.foldr insertSortedByKey []

namespace Caching

/-- The RequestInfo envelope from `apikeyrotator/middleware/models.py` as the
caching middleware reads it: method, url, headers, and the request body
(`kwargs['json'] or kwargs['data']`, canonically serialised; `none` models an
absent or falsy body). -/
structure RequestInfo where
  method : String
  url : String
  headers : List (String × String)
  body : Option String
deriving DecidableEq, Repr

/-- The ResponseInfo envelope: status code, response headers and body bytes
(the empty string is falsy in `if response_info.content:`), plus the
back-reference to the request. -/
structure ResponseInfo where
  status_code : Nat
  headers : List (String × String)
  content : String
  request_info : RequestInfo
deriving DecidableEq, Repr

/-- One cache slot: `{'response': ..., 'timestamp': ...}`. -/
structure CacheEntry where
  response : ResponseInfo
  timestamp : ℚ
deriving DecidableEq, Repr

/-- State of `CachingMiddleware` (`middleware/caching.py`).  The
`OrderedDict` is an association list whose head is the oldest
(least-recently-used) entry: `popitem(last=False)` pops the head,
`move_to_end` moves a binding to the tail.  The constructor applies
`max(1, max_cache_size)`, so `max_cache_size ≥ 1` in every reachable
state. -/
structure CachingMiddleware where
  cache : List (String × CacheEntry)
  ttl : ℚ := 300
  cache_only_get : Bool := true
  max_cache_size : Nat := 1000
  max_cache_size_bytes : Nat := 100 * 1024 * 1024
  max_cacheable_size : Nat := 10 * 1024 * 1024
  hits : Nat := 0
  misses : Nat := 0
deriving DecidableEq, Repr

/-- Model of Python `str(dict)` for a non-empty string-valued dict, used by
`_get_response_size` (`len(str(response_info.headers))`). -/
def pyDictStr (hs : List (String × String)) : String :=
  "\x7b" ++ String.intercalate ", "
    (hs.map (fun p => "'" ++ p.1 ++ "': '" ++ p.2 ++ "'")) ++ "\x7d"

/-- Embedding of `CachingMiddleware._get_response_size` (lines 63–71):
`len(content)` when content is truthy plus `len(str(headers))` when headers
are truthy. -/
def _get_response_size (response_info : ResponseInfo) : Nat :=
  (if response_info.content ≠ "" then response_info.content.length else 0) +
  (if response_info.headers ≠ [] then (pyDictStr response_info.headers).length else 0)

/-- Embedding of `CachingMiddleware._get_total_cache_size` (lines 73–79). -/
def _get_total_cache_size (cache : List (String × CacheEntry)) : Nat :=
  cache.foldl (fun total p => total + _get_response_size p.2.response) 0

/-- Embedding of `CachingMiddleware._is_safe_to_cache` (lines 81–128):
rejects responses with a `Set-Cookie` header, streaming content types,
`no-store`/`private` cache control, oversize bodies, and sensitive URLs. -/
def _is_safe_to_cache (s : CachingMiddleware) (response_info : ResponseInfo) : Bool :=
  if (dictGet response_info.headers "Set-Cookie").isSome ||
     (dictGet response_info.headers "set-cookie").isSome then false
  else
    let content_type := pyLower ((dictGet response_info.headers "Content-Type").getD "")
    if strContains content_type "text/event-stream" ||
       strContains content_type "multipart/x-mixed-replace" then false
    else
      let cache_control := pyLower ((dictGet response_info.headers "Cache-Control").getD "")
      if strContains cache_control "no-store" || strContains cache_control "private" then false
      else if _get_response_size response_info > s.max_cacheable_size then false
      else
        let url := pyLower response_info.request_info.url
        if strContains url "/login" || strContains url "/auth" ||
           strContains url "/password" || strContains url "/token" ||
           strContains url "/session" then false
        else true

/-- Model of `json.dumps(d, sort_keys=True)` for a string-valued dict. -/
def pyJsonDictStr (hs : List (String × String)) : String :=
  "\x7b" ++ String.intercalate ", "
    ((sortByKey hs).map (fun p => "\"" ++ p.1 ++ "\": \"" ++ p.2 ++ "\"")) ++ "\x7d"

/-- Embedding of `CachingMiddleware._get_cache_key` (lines 130–165).  The
final `hashlib.sha256(...).hexdigest()` is modelled as the identity on the
joined key parts (the hash is injective for the purposes of the cache). -/
def _get_cache_key (request_info : RequestInfo) : String :=
  let key_parts := [pyUpper request_info.method, request_info.url]
  let relevant_headers := request_info.headers.filter (fun p =>
    !((pyLower p.1 = "authorization") || (pyLower p.1 = "x-api-key") ||
      (pyLower p.1 = "user-agent") || (pyLower p.1 = "cookie")))
  let key_parts := if relevant_headers ≠ [] then
      key_parts ++ [pyJsonDictStr relevant_headers] else key_parts
  let key_parts :=
    if pyUpper request_info.method = "POST" ∨ pyUpper request_info.method = "PUT" ∨
       pyUpper request_info.method = "PATCH" then
      match request_info.body with
      | some body => key_parts ++ [body]
      | none => key_parts
    else key_parts
  String.intercalate "|" key_parts

/-- Embedding of `CachingMiddleware._evict_expired` (lines 167–182): delete
every entry whose age is `≥ ttl`. -/
def _evict_expired (cache : List (String × CacheEntry)) (current_time ttl : ℚ) :
    List (String × CacheEntry) :=
  cache.filter (fun p => ¬ (current_time - p.2.timestamp ≥ ttl))

/-- OrderedDict `move_to_end(key)`: move the binding of `key` to the tail
(most-recently-used position). -/
def moveToEnd (d : List (String × CacheEntry)) (k : String) :
    List (String × CacheEntry) :=
  match dictGet d k with
  | some v => dictDel d k ++ [(k, v)]
  | none => d

/-- Embedding of `CachingMiddleware.before_request` (lines 190–224).  `now`
models `time.time()`.  On a fresh hit the hit counter is bumped and the
entry promoted; on a stale find the entry is deleted and the miss counter
bumped.  In every case the incoming `request_info` is returned unchanged —
the middleware never serves the cached response (the source carries a TODO
noting that returning it would need rotator support). -/
def before_request (s : CachingMiddleware) (request_info : RequestInfo) (now : ℚ) :
    RequestInfo × CachingMiddleware :=
  if s.cache_only_get && pyUpper request_info.method ≠ "GET" then (request_info, s)
  else
    let cache_key := _get_cache_key request_info
    let s := if (s.hits + s.misses) % 100 = 0 then
        { s with cache := _evict_expired s.cache now s.ttl } else s
    match dictGet s.cache cache_key with
    | some cached =>
        if now - cached.timestamp < s.ttl then
          (request_info,
            { s with hits := s.hits + 1, cache := moveToEnd s.cache cache_key })
        else
          (request_info,
            { s with cache := dictDel s.cache cache_key, misses := s.misses + 1 })
    | none => (request_info, { s with misses := s.misses + 1 })

/-- The `while len(self.cache) >= self.max_cache_size: self._evict_lru()`
loop of `after_request`.  (`_evict_lru` pops the head, the oldest entry.
On an empty cache with `max_size = 0` the Python loop would spin forever,
but the constructor enforces `max_cache_size ≥ 1`.) -/
def evictWhileCount : List (String × CacheEntry) → Nat → List (String × CacheEntry)
  | [], _ => []
  | c :: t, max_size =>
      if (c :: t).length ≥ max_size then evictWhileCount t max_size else c :: t

/-- The byte-budget loop of `after_request`:
`while total + size > max_bytes:` evict the LRU head; when the cache runs
empty the middleware logs and returns without caching — modelled by `none`
(all prior entries having been evicted). -/
def evictWhileBytes : List (String × CacheEntry) → Nat → Nat →
    Option (List (String × CacheEntry))
  | [], response_size, max_bytes =>
      if response_size > max_bytes then none else some []
  | c :: t, response_size, max_bytes =>
      if _get_total_cache_size (c :: t) + response_size > max_bytes then
        evictWhileBytes t response_size max_bytes
      else some (c :: t)

/-- Embedding of `CachingMiddleware.after_request` (lines 226–270).  Caches
eligible 2xx responses; for a new key it first evicts by entry count, then
by byte budget (possibly emptying the cache and giving up); for an existing
key it refreshes the stored value in place (a plain dict assignment — no
promotion). -/
def after_request (s : CachingMiddleware) (response_info : ResponseInfo) (now : ℚ) :
    ResponseInfo × CachingMiddleware :=
  if s.cache_only_get && pyUpper response_info.request_info.method ≠ "GET" then
    (response_info, s)
  else if 200 ≤ response_info.status_code ∧ response_info.status_code < 300 then
    if !(_is_safe_to_cache s response_info) then (response_info, s)
    else
      let cache_key := _get_cache_key response_info.request_info
      let response_size := _get_response_size response_info
      let is_new_key := (dictGet s.cache cache_key).isNone
      if is_new_key then
        let c1 := evictWhileCount s.cache s.max_cache_size
        match evictWhileBytes c1 response_size s.max_cache_size_bytes with
        | none => (response_info, { s with cache := [] })
        | some c2 =>
            (response_info,
              { s with cache := c2 ++ [(cache_key, ⟨response_info, now⟩)] })
      else
        (response_info,
          { s with cache := dictSet s.cache cache_key ⟨response_info, now⟩ })
  else (response_info, s)

/-- The cache contents `before_request` actually looks up: the stored cache
after the periodic expiry sweep, which runs when `(hits + misses) % 100 ==
0`, and the stored cache unchanged otherwise. -/
def sweepApplied (s : CachingMiddleware) (now : ℚ) : List (String × CacheEntry) :=
  if (s.hits + s.misses) % 100 = 0 then _evict_expired s.cache now s.ttl
  else s.cache

/-- One orchestrator attempt threaded through the caching middleware, as in
`core/rotator.py` lines 503–535 (and the async variant, lines 703–737): run
the middleware's `before_request`, then invoke the transport
(`session.request`) — the rotator invokes it unconditionally, whatever
`before_request` did — then run `after_request` on the transport's response.
`transport` maps the (possibly middleware-modified) request to a response;
`calls` counts transport invocations. -/
def attemptWithCache (s : CachingMiddleware) (request_info : RequestInfo) (now : ℚ)
    (transport : RequestInfo → ResponseInfo) (calls : Nat) :
    ResponseInfo × CachingMiddleware × Nat :=
  let step := before_request s request_info now
  let response_obj := transport step.1
  let step2 := after_request step.2 response_obj now
  (step2.1, step2.2, calls + 1)

end Caching

namespace Rotator

open RotationStrategies
open ErrorClassifier

/-- Claim-relevant state of a synchronous `APIKeyRotator`
(`core/rotator.py`).  `metric_keys` is the key set of the `_key_metrics`
dict — the per-key `KeyMetrics` values come from the
`apikeyrotator.strategies` module, which is absent from the sources, and no
claim depends on them, only on membership.  The rotation strategy is the
default round-robin one (`rotation_strategy="round_robin"`), built by the
factory over a copy of the key list with cursor 0. -/
structure RotatorState where
  keys : List String
  metric_keys : List String
  rotation_strategy : RoundRobinStrategy
  max_retries : Nat
deriving DecidableEq, Repr

/-- The `BaseKeyRotator.__init__` key/metrics/strategy setup (lines 97–143):
metrics dict keyed by the pool, round-robin strategy over a copy of the
keys, cursor 0. -/
def initRotator (keys : List String) (max_retries : Nat) : RotatorState :=
  { keys := keys
    metric_keys := keys
    rotation_strategy := ⟨keys, 0⟩
    max_retries := max_retries }

/-- Embedding of `BaseKeyRotator.get_next_key` (lines 181–196): raises
`AllKeysExhaustedError("No keys available")` on an empty pool, otherwise
passes the metrics snapshot filtered to live keys to the strategy.  A
strategy-level exception (e.g. `IndexError`) would propagate. -/
def get_next_key (st : RotatorState) : Except PyError (String × RotatorState) :=
  if st.keys.isEmpty then Except.error (PyError.allKeysExhausted "No keys available")
  else
    let metrics_copy := (st.metric_keys.filter (fun k => st.keys.contains k)).map
      (fun k => (k, ()))
    match st.rotation_strategy.get_next_key metrics_copy with
    | Except.error e => Except.error e
    | Except.ok (key, strat) => Except.ok (key, { st with rotation_strategy := strat })

/-- Embedding of `BaseKeyRotator._remove_key_safely` (lines 296–328):
remove the key from the pool (`list.remove`, first occurrence, guarded by
membership), delete its metrics entry, and — when keys remain — rebuild the
rotation strategy from the remaining keys.  The rebuild goes through
`create_rotation_strategy` in the missing `apikeyrotator.strategies` module;
Modelled from the spec: "rebuilt (reset to 0, keep relative order)" (§4.2),
which coincides with the in-source
`rotation_strategies.create_rotation_strategy`/`RoundRobinStrategy.__init__`
(fresh strategy over a copy of the remaining keys, cursor 0).  The
`strategy_map` falls back to `'round_robin'` for unknown strategy classes,
so the round-robin rebuild also covers that default. -/
def remove_key_safely (st : RotatorState) (key : String) : RotatorState :=
  let keys := st.keys.erase key
  let metric_keys := st.metric_keys.erase key
  let strategy := if keys.isEmpty then st.rotation_strategy else ⟨keys, 0⟩
  { st with keys := keys, metric_keys := metric_keys, rotation_strategy := strategy }

/-- Embedding of `APIKeyRotator._should_retry` (lines 432–437): the custom
callback when supplied, otherwise retry iff the classifier says
`RATE_LIMIT` or `TEMPORARY`. -/
def _should_retry (should_retry_callback : Option (Nat → Bool)) (status : Nat) : Bool :=
  match should_retry_callback with
  | some callback => callback status
  | none =>
      match classify_error (some status) none with
      | ErrorType.rate_limit => true
      | ErrorType.temporary => true
      | _ => false

/-- Outcome of one transport call (`session.request`): a response with a
status code, or a raised `requests.RequestException`. -/
inductive TransportOutcome where
  | resp (status : Nat)
  | exc (e : TransportExc)
deriving DecidableEq, Repr

/-- What one iteration of the `request` retry loop decides after the
transport call, mirroring the dispatch on the classified error type
(`core/rotator.py` lines 519–610). -/
inductive StepDecision where
  /-- return `response_obj` to the caller. -/
  | ret (status : Nat) (st : RotatorState)
  /-- an exception propagates out of the loop. -/
  | raiseErr (e : PyError) (st : RotatorState)
  /-- the `continue` paths: next iteration WITHOUT `attempt += 1`. -/
  | continueSameAttempt (st : RotatorState)
  /-- fall through to `attempt += 1` and the backoff sleep. -/
  | nextAttempt (st : RotatorState)
deriving DecidableEq, Repr

/-- The body of one loop iteration after the transport outcome is known
(`core/rotator.py` lines 519–610).  On a response: classify; `PERMANENT`
evicts the key and continues without consuming an attempt (raising
`AllKeysExhaustedError` if the pool ran empty); `RATE_LIMIT`/`TEMPORARY`
fall through to `attempt += 1`; otherwise return unless the should-retry
predicate asks for a retry.  On a `requests.RequestException`: if a
middleware `on_error` reports handled, continue without consuming an
attempt; otherwise fall through to `attempt += 1`.  (`on_error_handled =
none` models an empty middleware list; metric updates touch only per-key
metric values, not membership, and are elided.) -/
def handleOutcome (st : RotatorState) (key : String) (outcome : TransportOutcome)
    (should_retry_callback : Option (Nat → Bool))
    (on_error_handled : Option (TransportExc → Bool)) : StepDecision :=
  match outcome with
  | TransportOutcome.resp status =>
      match classify_error (some status) none with
      | ErrorType.permanent =>
          let st2 := remove_key_safely st key
          if st2.keys.isEmpty then
            StepDecision.raiseErr
              (PyError.allKeysExhausted "All keys are permanently invalid.") st2
          else StepDecision.continueSameAttempt st2
      | ErrorType.rate_limit => StepDecision.nextAttempt st
      | ErrorType.temporary => StepDecision.nextAttempt st
      | _ =>
          if !(_should_retry should_retry_callback status) then
            StepDecision.ret status st
          else StepDecision.nextAttempt st
  | TransportOutcome.exc e =>
      match on_error_handled with
      | some handled =>
          if handled e then StepDecision.continueSameAttempt st
          else StepDecision.nextAttempt st
      | none => StepDecision.nextAttempt st

/-- Result of a whole `request` call. -/
inductive ReqOutcome where
  /-- a response is returned to the caller. -/
  | success (status : Nat) (st : RotatorState)
  /-- an exception reaches the caller. -/
  | raised (e : PyError) (st : RotatorState)
  /-- the finite transport script ran out while the loop was still going
  (an artifact of driving the loop with a finite script). -/
  | scriptEnded (st : RotatorState) (attempt : Nat)
deriving DecidableEq, Repr

/-- A `request` run: its outcome, the number of `session.request`
invocations, and the number of loop iterations executed. -/
structure LoopResult where
  outcome : ReqOutcome
  transport_calls : Nat
  iterations : Nat
deriving DecidableEq, Repr

/-- Embedding of the `while attempt < self.max_retries` retry loop of
`APIKeyRotator.request` (lines 488–621), driven by a script of transport
outcomes (one consumed per iteration).  Header preparation, proxy and
user-agent rotation, pacing delays, backoff sleeps and metric-value updates
mutate nothing claim-relevant and are elided.  Exhausting the loop raises
`AllKeysExhaustedError` with the source's message. -/
def requestLoop (st : RotatorState) (attempt : Nat) (script : List TransportOutcome)
    (should_retry_callback : Option (Nat → Bool))
    (on_error_handled : Option (TransportExc → Bool))
    (calls iters : Nat) : LoopResult :=
  if attempt < st.max_retries then
    match get_next_key st with
    | Except.error e => ⟨ReqOutcome.raised e st, calls, iters⟩
    | Except.ok (key, st1) =>
        match script with
        | [] => ⟨ReqOutcome.scriptEnded st1 attempt, calls, iters⟩
        | outcome :: rest =>
            match handleOutcome st1 key outcome should_retry_callback on_error_handled with
            | StepDecision.ret status st2 =>
                ⟨ReqOutcome.success status st2, calls + 1, iters + 1⟩
            | StepDecision.raiseErr e st2 =>
                ⟨ReqOutcome.raised e st2, calls + 1, iters + 1⟩
            | StepDecision.continueSameAttempt st2 =>
                requestLoop st2 attempt rest should_retry_callback on_error_handled
                  (calls + 1) (iters + 1)
            | StepDecision.nextAttempt st2 =>
                requestLoop st2 (attempt + 1) rest should_retry_callback on_error_handled
                  (calls + 1) (iters + 1)
  else
    ⟨ReqOutcome.raised (PyError.allKeysExhausted
        ("All " ++ toString st.keys.length ++ " keys exhausted after " ++
          toString st.max_retries ++ " attempts each")) st, calls, iters⟩

/-- Embedding of `APIKeyRotator.request` (lines 476–621): validate the URL
(`if not url or not url.strip(): raise ValueError`), then run the retry
loop starting at `attempt = 0`. -/
def request (st : RotatorState) (url : String) (script : List TransportOutcome)
    (should_retry_callback : Option (Nat → Bool))
    (on_error_handled : Option (TransportExc → Bool)) : LoopResult :=
  if url = "" || pyStrip url = "" then
    ⟨ReqOutcome.raised (PyError.valueError "URL cannot be empty") st, 0, 0⟩
  else requestLoop st 0 script should_retry_callback on_error_handled 0 0

/-- Well-formedness tying the strategy to the pool: whenever the pool is
non-empty, the strategy was (re)built over exactly the pool's key list and
its cursor is in range.  Holds after `__init__` and is preserved by the
loop. -/
def WF (st : RotatorState) : Prop :=
  st.keys ≠ [] →
    st.rotation_strategy._keys = st.keys ∧
    st.rotation_strategy._current_index < st.keys.length

/-- Discriminator: did the run end in `AllKeysExhaustedError`? -/
def ReqOutcomeIsExhausted : ReqOutcome → Bool
  | ReqOutcome.raised (PyError.allKeysExhausted _) _ => true
  | _ => false

/-- Discriminator: did a raw transport exception
(`requests.RequestException`) escape to the caller? -/
def ReqOutcomeIsTransportLeak : ReqOutcome → Bool
  | ReqOutcome.raised (PyError.requestException _) _ => true
  | _ => false

/-- Discriminator for the user-visible result surface claimed by the spec:
a returned response, `AllKeysExhaustedError`, or the `ValueError` of the
empty-URL validation (plus the script-ran-out artifact of the model). -/
def ReqOutcomeIsUserVisible : ReqOutcome → Bool
  | ReqOutcome.success _ _ => true
  | ReqOutcome.raised (PyError.allKeysExhausted _) _ => true
  | ReqOutcome.raised (PyError.valueError _) _ => true
  | ReqOutcome.scriptEnded _ _ => true
  | _ => false

/-- Attempt counter carried by a still-running (script-ended) outcome. -/
def ReqOutcomeAttempt : ReqOutcome → Option Nat
  | ReqOutcome.scriptEnded _ attempt => some attempt
  | _ => none

end Rotator

/-- C4: `classify_error` is pure (a function of its two inputs) and agrees
with the priority-ordered mapping stated in the claim: exception present and
connect/timeout-class → `network`; any other exception → `unknown`;
otherwise status 429 → `rate_limit`; status ∈ {500,502,503,504} →
`temporary`; status ∈ {401,403} → `permanent`; any other status in
[400,500) → `permanent`; every other input (status 200 included, and the
neither-response-nor-exception case) → `unknown`. -/
theorem classify_error_matches_claimed_mapping :
    ∀ (response : Option Nat) (exception : Option TransportExc),
      ErrorClassifier.classify_error response exception =
        ErrorClassifier.classifySpecModel response exception := by
  intro response exception
  cases exception with
  | some e => rfl
  | none =>
      cases response with
      | none => rfl
      | some s =>
          simp only [ErrorClassifier.classify_error,
            ErrorClassifier.classifySpecModel, List.mem_cons,
            List.mem_singleton, List.not_mem_nil, or_false]
          by_cases h429 : s = 429 <;>
            by_cases h5xx : s = 500 ∨ s = 502 ∨ s = 503 ∨ s = 504 <;>
            by_cases hauth : s = 401 ∨ s = 403 <;>
            by_cases hcli : 400 ≤ s ∧ s < 500 <;>
            simp_all <;> omega

namespace RotationStrategies

/-- On a pool with the cursor in range, `get_next_key` returns the key under
the cursor and advances the cursor modulo the pool size. -/
theorem rr_get_next_key_eq {α : Type} (keys : List String) (i : Nat)
    (h : i < keys.length) (metrics : List (String × α)) :
    RoundRobinStrategy.get_next_key ⟨keys, i⟩ metrics =
      Except.ok (keys.get ⟨i, h⟩, ⟨keys, (i + 1) % keys.length⟩) := by
  simp [RoundRobinStrategy.get_next_key, List.getElem?_eq_getElem h]

/-- Iterated round-robin: starting at cursor `i`, the `n`-th successive call
returns the key at index `(i + n) mod size` and leaves the cursor at
`(i + n + 1) mod size`. -/
theorem rrRun_from (n : Nat) :
    ∀ (keys : List String) (i : Nat) (h : i < keys.length),
      rrRun ⟨keys, i⟩ n =
        Except.ok (keys.get ⟨(i + n) % keys.length,
            Nat.mod_lt _ (lt_of_le_of_lt (Nat.zero_le i) h)⟩,
          ⟨keys, (i + n + 1) % keys.length⟩) := by
  induction n with
  | zero =>
      intro keys i h
      simp only [rrRun, rr_get_next_key_eq keys i h]
      simp [Nat.mod_eq_of_lt h]
  | succ n ih =>
      intro keys i h
      have hlen : 0 < keys.length := lt_of_le_of_lt (Nat.zero_le i) h
      have hi1 : (i + 1) % keys.length < keys.length := Nat.mod_lt _ hlen
      simp only [rrRun, rr_get_next_key_eq keys i h]
      rw [ih keys ((i + 1) % keys.length) hi1]
      have e1 : ((i + 1) % keys.length + n) % keys.length =
          (i + (n + 1)) % keys.length := by
        rw [Nat.mod_add_mod]
        congr 1
        omega
      have e2 : ((i + 1) % keys.length + n + 1) % keys.length =
          (i + (n + 1) + 1) % keys.length := by
        rw [Nat.add_assoc, Nat.mod_add_mod]
        congr 1
        omega
      simp [e1, e2]

/-- Every key an iterated round-robin run can return is a member of the
strategy's key list. -/
theorem rrRun_mem (n : Nat) :
    ∀ (keys : List String) (i : Nat) (out : String × RoundRobinStrategy),
      rrRun ⟨keys, i⟩ n = Except.ok out → out.1 ∈ keys := by
  induction n with
  | zero =>
      intro keys i out h
      simp only [rrRun, RoundRobinStrategy.get_next_key] at h
      cases hg : keys.get? i with
      | none => rw [hg] at h; cases h
      | some k =>
          rw [hg] at h
          cases h
          exact List.get?_mem hg
  | succ n ih =>
      intro keys i out h
      simp only [rrRun, RoundRobinStrategy.get_next_key] at h
      cases hg : keys.get? i with
      | none => rw [hg] at h; cases h
      | some k =>
          rw [hg] at h
          exact ih keys _ out h

end RotationStrategies

namespace Rotator

open RotationStrategies
open ErrorClassifier

/-- A non-empty list is not `isEmpty`. -/
theorem isEmpty_false_of_ne_nil {l : List String} (h : l ≠ []) :
    l.isEmpty = false := by
  cases l with
  | nil => exact absurd rfl h
  | cons a t => rfl

/-- Under well-formedness, `get_next_key` on a non-empty pool returns the
key under the strategy cursor and rotates the cursor. -/
theorem get_next_key_of_WF (st : RotatorState) (hW : WF st) (hne : st.keys ≠ []) :
    get_next_key st =
      Except.ok (st.keys.get ⟨st.rotation_strategy._current_index, (hW hne).2⟩,
        { st with rotation_strategy :=
            ⟨st.keys, (st.rotation_strategy._current_index + 1) % st.keys.length⟩ }) := by
  obtain ⟨hk, hi⟩ := hW hne
  have heta : st.rotation_strategy =
      ⟨st.keys, st.rotation_strategy._current_index⟩ := by rw [← hk]
  have hrr := rr_get_next_key_eq st.keys st.rotation_strategy._current_index hi
    ((st.metric_keys.filter (fun k => st.keys.contains k)).map (fun k => (k, ())))
  rw [← heta] at hrr
  have hie : st.keys.isEmpty = false := isEmpty_false_of_ne_nil hne
  simp only [get_next_key, hie, Bool.false_eq_true, if_false]
  rw [hrr]

/-- Rotating the cursor preserves well-formedness. -/
theorem WF_rotate (st : RotatorState) (hne : st.keys ≠ []) :
    WF { st with rotation_strategy :=
        ⟨st.keys, (st.rotation_strategy._current_index + 1) % st.keys.length⟩ } := by
  intro _
  refine ⟨rfl, Nat.mod_lt _ ?_⟩
  exact List.length_pos.mpr hne

/-- Removing a key preserves well-formedness (the strategy is rebuilt over
the remaining keys with cursor 0 whenever any remain). -/
theorem WF_remove (st : RotatorState) (key : String) :
    WF (remove_key_safely st key) := by
  intro hne
  simp only [remove_key_safely] at *
  have : (st.keys.erase key).isEmpty = false := isEmpty_false_of_ne_nil (by simpa using hne)
  simp only [this] at *
  exact ⟨rfl, by simpa using List.length_pos.mpr (by simpa using hne)⟩

end Rotator

namespace Rotator

open RotationStrategies
open ErrorClassifier

/-- Loop step: attempt budget spent — raise `AllKeysExhaustedError`. -/
theorem requestLoop_exhaust {st : RotatorState} {attempt : Nat}
    {script : List TransportOutcome} {cb : Option (Nat → Bool)}
    {mw : Option (TransportExc → Bool)} {calls iters : Nat}
    (hge : ¬ attempt < st.max_retries) :
    requestLoop st attempt script cb mw calls iters =
      ⟨ReqOutcome.raised (PyError.allKeysExhausted
          ("All " ++ toString st.keys.length ++ " keys exhausted after " ++
            toString st.max_retries ++ " attempts each")) st, calls, iters⟩ := by
  rw [requestLoop.eq_def]
  simp [hge]

/-- Loop step: key selected but the transport script is spent. -/
theorem requestLoop_script_end {st st1 : RotatorState} {attempt : Nat}
    {cb : Option (Nat → Bool)} {mw : Option (TransportExc → Bool)}
    {calls iters : Nat} {key : String}
    (hlt : attempt < st.max_retries)
    (hsel : get_next_key st = Except.ok (key, st1)) :
    requestLoop st attempt [] cb mw calls iters =
      ⟨ReqOutcome.scriptEnded st1 attempt, calls, iters⟩ := by
  rw [requestLoop.eq_def]
  simp [hlt, hsel]

/-- Loop step: key selection itself raised. -/
theorem requestLoop_sel_error {st : RotatorState} {attempt : Nat}
    {script : List TransportOutcome} {cb : Option (Nat → Bool)}
    {mw : Option (TransportExc → Bool)} {calls iters : Nat} {e : PyError}
    (hlt : attempt < st.max_retries)
    (hsel : get_next_key st = Except.error e) :
    requestLoop st attempt script cb mw calls iters =
      ⟨ReqOutcome.raised e st, calls, iters⟩ := by
  rw [requestLoop.eq_def]
  simp [hlt, hsel]

/-- Loop step: iteration decided to return the response. -/
theorem requestLoop_step_ret {st st1 st2 : RotatorState} {attempt : Nat}
    {o : TransportOutcome} {rest : List TransportOutcome}
    {cb : Option (Nat → Bool)} {mw : Option (TransportExc → Bool)}
    {calls iters : Nat} {key : String} {status : Nat}
    (hlt : attempt < st.max_retries)
    (hsel : get_next_key st = Except.ok (key, st1))
    (hdec : handleOutcome st1 key o cb mw = StepDecision.ret status st2) :
    requestLoop st attempt (o :: rest) cb mw calls iters =
      ⟨ReqOutcome.success status st2, calls + 1, iters + 1⟩ := by
  rw [requestLoop.eq_def]
  simp [hlt, hsel, hdec]

/-- Loop step: iteration raised an exception out of the loop. -/
theorem requestLoop_step_raise {st st1 st2 : RotatorState} {attempt : Nat}
    {o : TransportOutcome} {rest : List TransportOutcome}
    {cb : Option (Nat → Bool)} {mw : Option (TransportExc → Bool)}
    {calls iters : Nat} {key : String} {e : PyError}
    (hlt : attempt < st.max_retries)
    (hsel : get_next_key st = Except.ok (key, st1))
    (hdec : handleOutcome st1 key o cb mw = StepDecision.raiseErr e st2) :
    requestLoop st attempt (o :: rest) cb mw calls iters =
      ⟨ReqOutcome.raised e st2, calls + 1, iters + 1⟩ := by
  rw [requestLoop.eq_def]
  simp [hlt, hsel, hdec]

/-- Loop step: `continue` without consuming an attempt slot. -/
theorem requestLoop_step_continue {st st1 st2 : RotatorState} {attempt : Nat}
    {o : TransportOutcome} {rest : List TransportOutcome}
    {cb : Option (Nat → Bool)} {mw : Option (TransportExc → Bool)}
    {calls iters : Nat} {key : String}
    (hlt : attempt < st.max_retries)
    (hsel : get_next_key st = Except.ok (key, st1))
    (hdec : handleOutcome st1 key o cb mw = StepDecision.continueSameAttempt st2) :
    requestLoop st attempt (o :: rest) cb mw calls iters =
      requestLoop st2 attempt rest cb mw (calls + 1) (iters + 1) := by
  rw [requestLoop.eq_def]
  simp [hlt, hsel, hdec]

/-- Loop step: fall through to `attempt += 1`. -/
theorem requestLoop_step_next {st st1 st2 : RotatorState} {attempt : Nat}
    {o : TransportOutcome} {rest : List TransportOutcome}
    {cb : Option (Nat → Bool)} {mw : Option (TransportExc → Bool)}
    {calls iters : Nat} {key : String}
    (hlt : attempt < st.max_retries)
    (hsel : get_next_key st = Except.ok (key, st1))
    (hdec : handleOutcome st1 key o cb mw = StepDecision.nextAttempt st2) :
    requestLoop st attempt (o :: rest) cb mw calls iters =
      requestLoop st2 (attempt + 1) rest cb mw (calls + 1) (iters + 1) := by
  rw [requestLoop.eq_def]
  simp [hlt, hsel, hdec]

/-- Exhaustive shape analysis of one iteration's decision: return with the
state unchanged, exhaustion/continuation through `remove_key_safely`, plain
continuation, or attempt consumption — nothing else. -/
theorem handleOutcome_shapes (st : RotatorState) (key : String)
    (o : TransportOutcome) (cb : Option (Nat → Bool))
    (mw : Option (TransportExc → Bool)) :
    (∃ status, handleOutcome st key o cb mw = StepDecision.ret status st) ∨
    (handleOutcome st key o cb mw = StepDecision.raiseErr
        (PyError.allKeysExhausted "All keys are permanently invalid.")
        (remove_key_safely st key)) ∨
    (handleOutcome st key o cb mw =
        StepDecision.continueSameAttempt (remove_key_safely st key)) ∨
    (handleOutcome st key o cb mw = StepDecision.continueSameAttempt st) ∨
    (handleOutcome st key o cb mw = StepDecision.nextAttempt st) := by
  cases o with
  | resp status =>
      rcases hcl : classify_error (some status) none with _ | _ | _ | _ | _
      · right; right; right; right
        simp [handleOutcome, hcl]
      · right; right; right; right
        simp [handleOutcome, hcl]
      · by_cases hemp : (remove_key_safely st key).keys.isEmpty = true
        · right; left
          simp [handleOutcome, hcl, hemp]
        · right; right; left
          simp [handleOutcome, hcl, hemp]
      · by_cases hr : _should_retry cb status = true
        · right; right; right; right
          simp [handleOutcome, hcl, hr]
        · left
          exact ⟨status, by simp [handleOutcome, hcl, hr]⟩
      · by_cases hr : _should_retry cb status = true
        · right; right; right; right
          simp [handleOutcome, hcl, hr]
        · left
          exact ⟨status, by simp [handleOutcome, hcl, hr]⟩
  | exc e =>
      cases mw with
      | none => right; right; right; right; rfl
      | some handled =>
          by_cases hh : handled e = true
          · right; right; right; left
            simp [handleOutcome, hh]
          · right; right; right; right
            simp [handleOutcome, hh]

end Rotator

/-- C5 (counterexample): the claim says an empty pool fails with
ExhaustedError.  `RoundRobinStrategy.get_next_key` on an empty pool instead
raises `IndexError` (from `self._keys[self._current_index]`), which is not
an exhaustion error. -/
theorem empty_pool_round_robin_index_error_cx :
    RotationStrategies.RoundRobinStrategy.get_next_key
        (⟨[], 0⟩ : RotationStrategies.RoundRobinStrategy)
        ([] : List (String × Unit)) = Except.error PyError.indexError ∧
    RotationStrategies.PyErrorIsExhausted PyError.indexError = false :=
  ⟨rfl, rfl⟩

/-- C5 (amended): on an empty pool, `RoundRobinStrategy.get_next_key` raises
`IndexError` (for any cursor value and metrics snapshot) and
`HealthBasedStrategy.get_next_key` raises the bare
`Exception("No keys available for rotation.")`; neither is an ExhaustedError
(the orchestrator's own `get_next_key` wrapper raises
`AllKeysExhaustedError` itself, before consulting the strategy, when its
pool is empty). -/
theorem strategies_empty_pool_raise_non_exhausted_errors :
    ∀ (i : Nat) (metrics : List (String × Unit))
      (ft : Nat) (hci now : ℚ),
      RotationStrategies.RoundRobinStrategy.get_next_key
          (⟨[], i⟩ : RotationStrategies.RoundRobinStrategy) metrics =
        Except.error PyError.indexError ∧
      RotationStrategies.HealthBasedStrategy.get_next_key
          (RotationStrategies.HealthBasedStrategy.init [] ft hci) [] now =
        Except.error (PyError.genericException "No keys available for rotation.") ∧
      RotationStrategies.PyErrorIsExhausted PyError.indexError = false ∧
      RotationStrategies.PyErrorIsExhausted
        (PyError.genericException "No keys available for rotation.") = false ∧
      Rotator.get_next_key
          { keys := [], metric_keys := [], rotation_strategy := ⟨[], i⟩,
            max_retries := 0 } =
        Except.error (PyError.allKeysExhausted "No keys available") := by
  intro i metrics ft hci now
  refine ⟨?_, rfl, rfl, rfl, rfl⟩
  simp [RotationStrategies.RoundRobinStrategy.get_next_key]

/-- C8: for every non-empty key list, successive round-robin
`get_next_key` calls return the keys in cyclic insertion order (the `n`-th
call returns the key at index `n mod size` and leaves the cursor at
`(n+1) mod size`), and whenever pool membership changes
(`_remove_key_safely`), the strategy is rebuilt with its cursor reset to 0
over the remaining keys, which keep their relative order (a sublist of the
old pool). -/
theorem round_robin_cyclic_order_and_rebuild :
    (∀ (keys : List String) (hne : keys ≠ []) (n : Nat),
      RotationStrategies.rrRun ⟨keys, 0⟩ n = Except.ok
        (keys.get ⟨n % keys.length, Nat.mod_lt _ (List.length_pos.mpr hne)⟩,
         ⟨keys, (n + 1) % keys.length⟩)) ∧
    (∀ (st : Rotator.RotatorState) (key : String), st.keys.erase key ≠ [] →
      (Rotator.remove_key_safely st key).rotation_strategy =
        ⟨st.keys.erase key, 0⟩ ∧
      (st.keys.erase key).Sublist st.keys) := by
  constructor
  · intro keys hne n
    have h0 : 0 < keys.length := List.length_pos.mpr hne
    have h := RotationStrategies.rrRun_from n keys 0 h0
    simpa using h
  · intro st key hne
    refine ⟨?_, List.erase_sublist _ _⟩
    simp [Rotator.remove_key_safely, Rotator.isEmpty_false_of_ne_nil hne]

/-- Witness for C8: with keys `[a, b, c]`, the fifth call (index 4) returns
`b` (cyclic order `a,b,c,a,b`), and removing `b` rebuilds the strategy as
round-robin over `[a, c]` with cursor 0. -/
theorem round_robin_cyclic_order_witness :
    RotationStrategies.rrRun ⟨["a", "b", "c"], 0⟩ 4 =
      Except.ok ("b", ⟨["a", "b", "c"], 2⟩) ∧
    (Rotator.remove_key_safely (Rotator.initRotator ["a", "b", "c"] 3)
        "b").rotation_strategy = ⟨["a", "c"], 0⟩ := by
  constructor
  · have h := round_robin_cyclic_order_and_rebuild.1 ["a", "b", "c"] (by decide) 4
    rw [h]
    rfl
  · have h := (round_robin_cyclic_order_and_rebuild.2
        (Rotator.initRotator ["a", "b", "c"] 3) "b" (by decide)).1
    rw [h]
    rfl

/-- A 429 response is classified `RateLimit` and falls through to
`attempt += 1` regardless of callback and middleware. -/
theorem Rotator.handleOutcome_resp_429 (st : Rotator.RotatorState) (key : String)
    (cb : Option (Nat → Bool)) (mw : Option (TransportExc → Bool)) :
    Rotator.handleOutcome st key (Rotator.TransportOutcome.resp 429) cb mw =
      Rotator.StepDecision.nextAttempt st := rfl

/-- C1 (amended): when every transport response is classified `RateLimit`
(status 429), the synchronous retry loop consumes one attempt per
iteration and raises `AllKeysExhaustedError` after exactly `max_retries`
transport calls IN TOTAL — the bound is not per key. -/
theorem all_rate_limited_exhausts_after_max_retries_attempts :
    ∀ (script : List Rotator.TransportOutcome) (st : Rotator.RotatorState)
      (attempt calls iters : Nat),
      Rotator.WF st → st.keys ≠ [] →
      (∀ o ∈ script, o = Rotator.TransportOutcome.resp 429) →
      st.max_retries ≤ attempt + script.length →
      Rotator.ReqOutcomeIsExhausted
        (Rotator.requestLoop st attempt script none none calls iters).outcome = true ∧
      (Rotator.requestLoop st attempt script none none calls iters).transport_calls =
        calls + (st.max_retries - attempt) := by
  intro script
  induction script with
  | nil =>
      intro st attempt calls iters hW hne hall hbound
      simp only [List.length_nil, Nat.add_zero] at hbound
      have hge : ¬ attempt < st.max_retries := by omega
      rw [Rotator.requestLoop_exhaust hge]
      exact ⟨rfl, by simp; omega⟩
  | cons o rest ih =>
      intro st attempt calls iters hW hne hall hbound
      have ho : o = Rotator.TransportOutcome.resp 429 :=
        hall o (List.mem_cons_self o rest)
      subst ho
      by_cases hlt : attempt < st.max_retries
      · have hsel := Rotator.get_next_key_of_WF st hW hne
        rw [Rotator.requestLoop_step_next hlt hsel
          (Rotator.handleOutcome_resp_429 _ _ _ _)]
        obtain ⟨h1, h2⟩ := ih
          { st with rotation_strategy :=
              ⟨st.keys, (st.rotation_strategy._current_index + 1) % st.keys.length⟩ }
          (attempt + 1) (calls + 1) (iters + 1)
          (Rotator.WF_rotate st hne) hne
          (fun o ho => hall o (List.mem_cons_of_mem _ ho))
          (by simp only [List.length_cons] at hbound; show st.max_retries ≤ _; omega)
        refine ⟨h1, ?_⟩
        rw [h2]
        show calls + 1 + (st.max_retries - (attempt + 1)) = _
        omega
      · rw [Rotator.requestLoop_exhaust hlt]
        simp only [List.length_cons] at hbound
        exact ⟨rfl, by simp; omega⟩

/-- Witness for C1 (amended): a pool of 2 keys with `maxRetries = 1` and a
429 response raises `AllKeysExhaustedError` after exactly one transport
call. -/
theorem all_rate_limited_exhausts_witness :
    Rotator.ReqOutcomeIsExhausted
      (Rotator.requestLoop (Rotator.initRotator ["key1", "key2"] 1) 0
        [Rotator.TransportOutcome.resp 429] none none 0 0).outcome = true ∧
    (Rotator.requestLoop (Rotator.initRotator ["key1", "key2"] 1) 0
        [Rotator.TransportOutcome.resp 429] none none 0 0).transport_calls = 1 := by
  have h := all_rate_limited_exhausts_after_max_retries_attempts
    [Rotator.TransportOutcome.resp 429] (Rotator.initRotator ["key1", "key2"] 1)
    0 0 0
    (by intro hne; exact ⟨rfl, by decide⟩)
    (by decide)
    (by intro o ho; simpa using ho)
    (by decide)
  exact ⟨h.1, h.2.trans (by decide)⟩

/-- C1 (counterexample): with exactly 2 keys, `maxRetries = 1` and every
response classified `RateLimit`, `APIKeyRotator.request` raises
`AllKeysExhaustedError` after exactly ONE attempt — not the two (one per
key) the claim asserts: the loop runs `max_retries` total iterations, so
the second scripted 429 is never requested. -/
theorem two_keys_one_retry_rate_limit_single_attempt_cx :
    Rotator.ReqOutcomeIsExhausted
      (Rotator.request (Rotator.initRotator ["key1", "key2"] 1)
        "http://example.com"
        [Rotator.TransportOutcome.resp 429, Rotator.TransportOutcome.resp 429]
        none none).outcome = true ∧
    (Rotator.request (Rotator.initRotator ["key1", "key2"] 1)
        "http://example.com"
        [Rotator.TransportOutcome.resp 429, Rotator.TransportOutcome.resp 429]
        none none).transport_calls = 1 ∧
    (Rotator.request (Rotator.initRotator ["key1", "key2"] 1)
        "http://example.com"
        [Rotator.TransportOutcome.resp 429, Rotator.TransportOutcome.resp 429]
        none none).iterations = 1 := by
  refine ⟨?_, ?_, ?_⟩ <;> rfl

/-- C10: when a transport exception is reported handled by an `on_error`
middleware, the loop continues with the attempt counter unchanged; after
`n` consecutive handled exceptions (for ANY `n`) the loop has run `n` more
iterations and made `n` more transport calls while `attempt` is still its
initial value — so the number of iterations is not bounded by
`max_retries`. -/
theorem handled_exception_preserves_attempt_counter :
    ∀ (n : Nat) (st : Rotator.RotatorState) (attempt calls iters : Nat)
      (e : TransportExc) (handled : TransportExc → Bool)
      (cb : Option (Nat → Bool)),
      Rotator.WF st → st.keys ≠ [] → handled e = true →
      attempt < st.max_retries →
      Rotator.ReqOutcomeAttempt
        (Rotator.requestLoop st attempt
          (List.replicate n (Rotator.TransportOutcome.exc e)) cb (some handled)
          calls iters).outcome = some attempt ∧
      (Rotator.requestLoop st attempt
          (List.replicate n (Rotator.TransportOutcome.exc e)) cb (some handled)
          calls iters).iterations = iters + n ∧
      (Rotator.requestLoop st attempt
          (List.replicate n (Rotator.TransportOutcome.exc e)) cb (some handled)
          calls iters).transport_calls = calls + n := by
  intro n
  induction n with
  | zero =>
      intro st attempt calls iters e handled cb hW hne hh hlt
      have hsel := Rotator.get_next_key_of_WF st hW hne
      rw [List.replicate_zero, Rotator.requestLoop_script_end hlt hsel]
      exact ⟨rfl, rfl, rfl⟩
  | succ n ih =>
      intro st attempt calls iters e handled cb hW hne hh hlt
      have hsel := Rotator.get_next_key_of_WF st hW hne
      have hdec : Rotator.handleOutcome
          { st with rotation_strategy :=
              ⟨st.keys, (st.rotation_strategy._current_index + 1) % st.keys.length⟩ }
          (st.keys.get ⟨st.rotation_strategy._current_index, (hW hne).2⟩)
          (Rotator.TransportOutcome.exc e) cb (some handled) =
          Rotator.StepDecision.continueSameAttempt
            { st with rotation_strategy :=
                ⟨st.keys, (st.rotation_strategy._current_index + 1) % st.keys.length⟩ } := by
        simp [Rotator.handleOutcome, hh]
      rw [List.replicate_succ, Rotator.requestLoop_step_continue hlt hsel hdec]
      obtain ⟨h1, h2, h3⟩ := ih
        { st with rotation_strategy :=
            ⟨st.keys, (st.rotation_strategy._current_index + 1) % st.keys.length⟩ }
        attempt (calls + 1) (iters + 1) e handled cb
        (Rotator.WF_rotate st hne) hne hh hlt
      refine ⟨h1, ?_, ?_⟩
      · rw [h2]; omega
      · rw [h3]; omega

/-- Witness for C10: one key, `maxRetries = 1`, five scripted exceptions all
reported handled — the loop runs 5 iterations (more than `maxRetries`) with
the attempt counter still 0. -/
theorem handled_exception_preserves_attempt_witness :
    Rotator.ReqOutcomeAttempt
      (Rotator.requestLoop (Rotator.initRotator ["k1"] 1) 0
        (List.replicate 5 (Rotator.TransportOutcome.exc ⟨true, false⟩))
        none (some (fun _ => true)) 0 0).outcome = some 0 ∧
    (Rotator.requestLoop (Rotator.initRotator ["k1"] 1) 0
        (List.replicate 5 (Rotator.TransportOutcome.exc ⟨true, false⟩))
        none (some (fun _ => true)) 0 0).iterations = 5 ∧
    (Rotator.requestLoop (Rotator.initRotator ["k1"] 1) 0
        (List.replicate 5 (Rotator.TransportOutcome.exc ⟨true, false⟩))
        none (some (fun _ => true)) 0 0).transport_calls = 5 := by
  have h := handled_exception_preserves_attempt_counter 5
    (Rotator.initRotator ["k1"] 1) 0 0 0 ⟨true, false⟩ (fun _ => true) none
    (by intro hne; exact ⟨rfl, by decide⟩) (by decide) rfl (by decide)
  exact ⟨h.1, h.2.1.trans (by decide), h.2.2.trans (by decide)⟩

namespace Rotator

/-- A user-visible outcome is never a leaked transport exception. -/
theorem visible_no_leak (o : ReqOutcome)
    (h : ReqOutcomeIsUserVisible o = true) :
    ReqOutcomeIsTransportLeak o = false := by
  cases o with
  | success status st => rfl
  | scriptEnded st attempt => rfl
  | raised e st => cases e <;> simp_all [ReqOutcomeIsUserVisible, ReqOutcomeIsTransportLeak]

/-- Every run of the retry loop from a well-formed state ends in a returned
response, an `AllKeysExhaustedError`, or the script-ran-out artifact —
never in any other exception. -/
theorem requestLoop_visible_aux :
    ∀ (script : List TransportOutcome) (st : RotatorState) (attempt : Nat)
      (cb : Option (Nat → Bool)) (mw : Option (TransportExc → Bool))
      (calls iters : Nat),
      WF st →
      ReqOutcomeIsUserVisible
        (requestLoop st attempt script cb mw calls iters).outcome = true := by
  intro script
  induction script with
  | nil =>
      intro st attempt cb mw calls iters hW
      by_cases hlt : attempt < st.max_retries
      · by_cases hne : st.keys = []
        · have hsel : get_next_key st =
              Except.error (PyError.allKeysExhausted "No keys available") := by
            simp [get_next_key, hne]
          rw [requestLoop_sel_error hlt hsel]
          rfl
        · rw [requestLoop_script_end hlt (get_next_key_of_WF st hW hne)]
          rfl
      · rw [requestLoop_exhaust hlt]
        rfl
  | cons o rest ih =>
      intro st attempt cb mw calls iters hW
      by_cases hlt : attempt < st.max_retries
      · by_cases hne : st.keys = []
        · have hsel : get_next_key st =
              Except.error (PyError.allKeysExhausted "No keys available") := by
            simp [get_next_key, hne]
          rw [requestLoop_sel_error hlt hsel]
          rfl
        · have hsel := get_next_key_of_WF st hW hne
          rcases handleOutcome_shapes
              { st with rotation_strategy :=
                  ⟨st.keys, (st.rotation_strategy._current_index + 1) % st.keys.length⟩ }
              (st.keys.get ⟨st.rotation_strategy._current_index, (hW hne).2⟩)
              o cb mw with ⟨status, hdec⟩ | hdec | hdec | hdec | hdec
          · rw [requestLoop_step_ret hlt hsel hdec]
            rfl
          · rw [requestLoop_step_raise hlt hsel hdec]
            rfl
          · rw [requestLoop_step_continue hlt hsel hdec]
            exact ih _ attempt cb mw _ _ (WF_remove _ _)
          · rw [requestLoop_step_continue hlt hsel hdec]
            exact ih _ attempt cb mw _ _ (WF_rotate st hne)
          · rw [requestLoop_step_next hlt hsel hdec]
            exact ih _ (attempt + 1) cb mw _ _ (WF_rotate st hne)
      · rw [requestLoop_exhaust hlt]
        rfl

end Rotator

/-- C9: a `request` call from a well-formed rotator state never lets a raw
transport exception (`requests.RequestException`) escape: every scripted
transport exception is absorbed inside the loop, and the user-visible
result is a returned response, `AllKeysExhaustedError`, or the empty-URL
`ValueError` (or the model's script-ran-out artifact while the loop is
still live). -/
theorem request_never_leaks_transport_exceptions :
    ∀ (st : Rotator.RotatorState) (url : String)
      (script : List Rotator.TransportOutcome)
      (cb : Option (Nat → Bool)) (mw : Option (TransportExc → Bool)),
      Rotator.WF st →
      Rotator.ReqOutcomeIsUserVisible
        (Rotator.request st url script cb mw).outcome = true ∧
      Rotator.ReqOutcomeIsTransportLeak
        (Rotator.request st url script cb mw).outcome = false := by
  intro st url script cb mw hW
  have hvis : Rotator.ReqOutcomeIsUserVisible
      (Rotator.request st url script cb mw).outcome = true := by
    unfold Rotator.request
    split
    · rfl
    · exact Rotator.requestLoop_visible_aux script st 0 cb mw 0 0 hW
  exact ⟨hvis, Rotator.visible_no_leak _ hvis⟩

/-- Witness for C9: a concrete run — one key, a connection error followed by
a 200 — ends user-visibly (and with no transport-exception leak). -/
theorem request_never_leaks_witness :
    Rotator.ReqOutcomeIsUserVisible
      (Rotator.request (Rotator.initRotator ["k1"] 3) "http://example.com"
        [Rotator.TransportOutcome.exc ⟨true, false⟩,
         Rotator.TransportOutcome.resp 200] none none).outcome = true ∧
    Rotator.ReqOutcomeIsTransportLeak
      (Rotator.request (Rotator.initRotator ["k1"] 3) "http://example.com"
        [Rotator.TransportOutcome.exc ⟨true, false⟩,
         Rotator.TransportOutcome.resp 200] none none).outcome = false :=
  request_never_leaks_transport_exceptions (Rotator.initRotator ["k1"] 3)
    "http://example.com"
    [Rotator.TransportOutcome.exc ⟨true, false⟩, Rotator.TransportOutcome.resp 200]
    none none (by intro hne; exact ⟨rfl, by decide⟩)

/-- C2: when the response of a loop iteration is classified `Permanent`, the
selected key is removed from the pool and from the metrics dict, the pool
shrinks by exactly one, the loop continues WITHOUT consuming an attempt
slot — unless the pool ran empty, in which case `AllKeysExhaustedError` is
raised — and the rotation strategy is rebuilt over the remaining keys, so
that no later `get_next_key` run can ever return the evicted key. -/
theorem permanent_response_evicts_key_and_continues
    (st : Rotator.RotatorState) (status : Nat)
    (cb : Option (Nat → Bool)) (mw : Option (TransportExc → Bool))
    (hW : Rotator.WF st) (hne : st.keys ≠ [])
    (hperm : ErrorClassifier.classify_error (some status) none =
      ErrorClassifier.ErrorType.permanent)
    (hnodup : st.keys.Nodup) (hnodupm : st.metric_keys.Nodup) :
    let key := st.keys.get ⟨st.rotation_strategy._current_index, (hW hne).2⟩
    let st1 := { st with rotation_strategy :=
        ⟨st.keys, (st.rotation_strategy._current_index + 1) % st.keys.length⟩ }
    let st2 := Rotator.remove_key_safely st1 key
    (∀ (rest : List Rotator.TransportOutcome) (attempt calls iters : Nat),
      attempt < st.max_retries →
      Rotator.requestLoop st attempt
          (Rotator.TransportOutcome.resp status :: rest) cb mw calls iters =
        if st2.keys.isEmpty then
          ⟨Rotator.ReqOutcome.raised
              (PyError.allKeysExhausted "All keys are permanently invalid.") st2,
            calls + 1, iters + 1⟩
        else Rotator.requestLoop st2 attempt rest cb mw (calls + 1) (iters + 1)) ∧
    st2.keys = st.keys.erase key ∧
    st2.keys.length + 1 = st.keys.length ∧
    key ∉ st2.keys ∧
    key ∉ st2.metric_keys ∧
    (st2.keys ≠ [] →
      st2.rotation_strategy = ⟨st.keys.erase key, 0⟩ ∧
      ∀ (n : Nat) (out : String × RotationStrategies.RoundRobinStrategy),
        RotationStrategies.rrRun st2.rotation_strategy n = Except.ok out →
        out.1 ≠ key) := by
  intro key st1 st2
  have hmem : key ∈ st.keys := List.get_mem _ _ _
  have hkeys2 : st2.keys = st.keys.erase key := rfl
  have hmk2 : st2.metric_keys = st.metric_keys.erase key := rfl
  refine ⟨?_, hkeys2, ?_, ?_, ?_, ?_⟩
  · intro rest attempt calls iters hlt
    have hsel := Rotator.get_next_key_of_WF st hW hne
    have hdec := Rotator.handleOutcome st1 key (Rotator.TransportOutcome.resp status) cb mw
    by_cases hemp : st2.keys.isEmpty = true
    · have hdec' : Rotator.handleOutcome st1 key
          (Rotator.TransportOutcome.resp status) cb mw =
          Rotator.StepDecision.raiseErr
            (PyError.allKeysExhausted "All keys are permanently invalid.") st2 := by
        simp [Rotator.handleOutcome, hperm, hemp]
      rw [Rotator.requestLoop_step_raise hlt hsel hdec', if_pos hemp]
    · have hdec' : Rotator.handleOutcome st1 key
          (Rotator.TransportOutcome.resp status) cb mw =
          Rotator.StepDecision.continueSameAttempt st2 := by
        simp [Rotator.handleOutcome, hperm, hemp]
      rw [Rotator.requestLoop_step_continue hlt hsel hdec', if_neg hemp]
  · rw [hkeys2, List.length_erase_of_mem hmem]
    have : 0 < st.keys.length := List.length_pos.mpr hne
    omega
  · rw [hkeys2]
    intro hin
    exact ((List.Nodup.mem_erase_iff hnodup).mp hin).1 rfl
  · rw [hmk2]
    intro hin
    exact ((List.Nodup.mem_erase_iff hnodupm).mp hin).1 rfl
  · intro hne2
    have hstrat : st2.rotation_strategy = ⟨st.keys.erase key, 0⟩ := by
      have hie : (st.keys.erase key).isEmpty = false :=
        Rotator.isEmpty_false_of_ne_nil (by rw [← hkeys2]; exact hne2)
      show (if (st.keys.erase key).isEmpty then st1.rotation_strategy
        else (⟨st.keys.erase key, 0⟩ : RotationStrategies.RoundRobinStrategy)) = _
      rw [hie]
      rfl
    refine ⟨hstrat, ?_⟩
    intro n out hout
    rw [hstrat] at hout
    have hmem2 : out.1 ∈ st.keys.erase key :=
      RotationStrategies.rrRun_mem n (st.keys.erase key) 0 out hout
    intro heq
    rw [heq] at hmem2
    exact ((List.Nodup.mem_erase_iff hnodup).mp hmem2).1 rfl

/-- Witness for C2: two keys, a 401 (Permanent) response — evicting the
selected key `sk-a` leaves pool `[sk-b]`, removes its metrics entry, and
the rebuilt strategy can only ever return `sk-b`. -/
theorem permanent_response_evicts_witness :
    (Rotator.remove_key_safely
        { Rotator.initRotator ["sk-a", "sk-b"] 3 with rotation_strategy :=
            ⟨["sk-a", "sk-b"], 1 % 2⟩ } "sk-a").keys = ["sk-b"] ∧
    "sk-a" ∉ (Rotator.remove_key_safely
        { Rotator.initRotator ["sk-a", "sk-b"] 3 with rotation_strategy :=
            ⟨["sk-a", "sk-b"], 1 % 2⟩ } "sk-a").metric_keys := by
  have h := permanent_response_evicts_key_and_continues
    (Rotator.initRotator ["sk-a", "sk-b"] 3) 401 none none
    (by intro hne; exact ⟨rfl, by decide⟩) (by decide) (by decide)
    (by decide) (by decide)
  exact ⟨h.2.1.trans (by decide), h.2.2.2.2.1⟩

/-- A dict lookup misses exactly when the key is absent. -/
theorem dictGet_eq_none_iff {α : Type} (d : List (String × α)) (k : String) :
    dictGet d k = none ↔ k ∉ d.map Prod.fst := by
  induction d with
  | nil => simp [dictGet]
  | cons p t ih =>
      obtain ⟨k', v⟩ := p
      by_cases h : k' = k
      · subst h
        simp [dictGet]
      · simp [dictGet, h, ih, Ne.symm h]

/-- Lookup in a filtered dict, for dicts with unique keys: the filter keeps
exactly the bindings whose pair satisfies the predicate. -/
theorem dictGet_filter {α : Type} (p : String × α → Bool) (d : List (String × α))
    (hnodup : (d.map Prod.fst).Nodup) (k : String) :
    dictGet (d.filter p) k =
      match dictGet d k with
      | some v => if p (k, v) then some v else none
      | none => none := by
  induction d with
  | nil => simp [dictGet]
  | cons q t ih =>
      obtain ⟨k', v⟩ := q
      simp only [List.map_cons, List.nodup_cons] at hnodup
      obtain ⟨hk', ht⟩ := hnodup
      by_cases h : k' = k
      · subst h
        have hnone : dictGet t k' = none := (dictGet_eq_none_iff t k').mpr hk'
        by_cases hp : p (k', v) = true
        · simp [List.filter_cons, hp, dictGet]
        · have hfn : dictGet (t.filter p) k' = none := by
            rw [ih ht, hnone]
          simp [List.filter_cons, hp, dictGet, hfn, hnone]
      · by_cases hp : p (k', v) = true
        · simp [List.filter_cons, hp, dictGet, h, ih ht]
        · simp [List.filter_cons, hp, dictGet, h, ih ht]

/-- Deleting a key from a unique-key dict removes its binding. -/
theorem dictGet_dictDel_self {α : Type} (d : List (String × α))
    (hnodup : (d.map Prod.fst).Nodup) (k : String) :
    dictGet (dictDel d k) k = none := by
  induction d with
  | nil => simp [dictDel, dictGet]
  | cons q t ih =>
      obtain ⟨k', v⟩ := q
      simp only [List.map_cons, List.nodup_cons] at hnodup
      obtain ⟨hk', ht⟩ := hnodup
      by_cases h : k' = k
      · subst h
        simp [dictDel, (dictGet_eq_none_iff t k').mpr hk']
      · simp [dictDel, h, dictGet, ih ht]

namespace Caching

/-- Promoting a present binding puts it (with its stored value) at the
most-recently-used tail position. -/
theorem moveToEnd_getLast (d : List (String × CacheEntry)) (k : String)
    (v : CacheEntry) (h : dictGet d k = some v) :
    (moveToEnd d k).getLast? = some (k, v) := by
  simp [moveToEnd, h, List.getLast?_concat]

/-- The caching middleware's `before_request` never changes the request it
returns — in particular it never substitutes the cached response. -/
theorem before_request_fst (s : CachingMiddleware) (req : RequestInfo) (now : ℚ) :
    (before_request s req now).1 = req := by
  by_cases hc : (s.cache_only_get && decide (pyUpper req.method ≠ "GET")) = true
  · unfold before_request
    rw [if_pos hc]
  · unfold before_request
    rw [if_neg hc]
    dsimp only
    rcases hdg : dictGet (if (s.hits + s.misses) % 100 = 0 then
        { s with cache := _evict_expired s.cache now s.ttl } else s).cache
        (_get_cache_key req) with _ | cached
    · simp only [hdg]
    · simp only [hdg]
      by_cases hf : now - cached.timestamp < (if (s.hits + s.misses) % 100 = 0 then
          { s with cache := _evict_expired s.cache now s.ttl } else s).ttl
      · rw [if_pos hf]
      · rw [if_neg hf]

/-- Unfolding of `before_request` for a GET request: the lookup runs over
the sweep-applied cache and either promotes a fresh hit, deletes a stale
find, or counts a miss. -/
theorem before_request_eq (s : CachingMiddleware) (req : RequestInfo) (now : ℚ)
    (hget : pyUpper req.method = "GET") :
    before_request s req now =
      match dictGet (sweepApplied s now) (_get_cache_key req) with
      | some cached =>
          if now - cached.timestamp < s.ttl then
            (req, { s with hits := s.hits + 1, cache := moveToEnd (sweepApplied s now) (_get_cache_key req) })
          else
            (req, { s with cache := dictDel (sweepApplied s now) (_get_cache_key req), misses := s.misses + 1 })
      | none =>
          (req, { s with cache := sweepApplied s now, misses := s.misses + 1 }) := by
  have hc : (s.cache_only_get && decide (pyUpper req.method ≠ "GET")) = false := by
    simp [hget]
  unfold before_request sweepApplied
  simp only [hc, Bool.false_eq_true, if_false]
  by_cases hmod : (s.hits + s.misses) % 100 = 0
  · simp only [if_pos hmod]
  · simp only [if_neg hmod]

end Caching

namespace Caching

/-- The expiry sweep keeps a fresh binding (hit condition `now - ts < ttl`). -/
theorem sweep_preserves_fresh (s : CachingMiddleware) (now : ℚ) (ck : String)
    (e : CacheEntry) (hnodup : (s.cache.map Prod.fst).Nodup)
    (hfound : dictGet s.cache ck = some e)
    (hfresh : now - e.timestamp < s.ttl) :
    dictGet (sweepApplied s now) ck = some e := by
  unfold sweepApplied
  by_cases hmod : (s.hits + s.misses) % 100 = 0
  · rw [if_pos hmod]
    unfold _evict_expired
    rw [dictGet_filter _ _ hnodup ck, hfound]
    have hng : ¬ (now - e.timestamp ≥ s.ttl) := not_le.mpr hfresh
    simp [hng]
  · rw [if_neg hmod]
    exact hfound

/-- When the sweep runs, it deletes a stale binding. -/
theorem sweep_removes_stale (s : CachingMiddleware) (now : ℚ) (ck : String)
    (e : CacheEntry) (hnodup : (s.cache.map Prod.fst).Nodup)
    (hfound : dictGet s.cache ck = some e)
    (hstale : s.ttl ≤ now - e.timestamp)
    (hmod : (s.hits + s.misses) % 100 = 0) :
    dictGet (sweepApplied s now) ck = none := by
  unfold sweepApplied
  rw [if_pos hmod]
  unfold _evict_expired
  rw [dictGet_filter _ _ hnodup ck, hfound]
  simp [hstale]

/-- An absent key stays absent through the sweep. -/
theorem sweep_preserves_absent (s : CachingMiddleware) (now : ℚ) (ck : String)
    (hnone : dictGet s.cache ck = none) :
    dictGet (sweepApplied s now) ck = none := by
  unfold sweepApplied
  by_cases hmod : (s.hits + s.misses) % 100 = 0
  · rw [if_pos hmod]
    have hmem : ck ∉ s.cache.map Prod.fst := (dictGet_eq_none_iff _ _).mp hnone
    refine (dictGet_eq_none_iff _ _).mpr ?_
    intro hin
    exact hmem (((List.filter_sublist _).map Prod.fst).subset hin)
  · rw [if_neg hmod]
    exact hnone

/-- Fresh-hit equation: `before_request` bumps the hit counter and promotes
the entry through `move_to_end`; the request is returned unchanged. -/
theorem before_request_hit (s : CachingMiddleware) (req : RequestInfo) (now : ℚ)
    (e : CacheEntry) (hget : pyUpper req.method = "GET")
    (hnodup : (s.cache.map Prod.fst).Nodup)
    (hfound : dictGet s.cache (_get_cache_key req) = some e)
    (hfresh : now - e.timestamp < s.ttl) :
    before_request s req now =
      (req, { s with hits := s.hits + 1, cache := moveToEnd (sweepApplied s now) (_get_cache_key req) }) := by
  rw [before_request_eq s req now hget]
  simp only [sweep_preserves_fresh s now _ e hnodup hfound hfresh]
  rw [if_pos hfresh]

/-- Component facts of a fresh hit: hit counter bumped, miss counter
untouched, and the entry sits at the most-recently-used tail. -/
theorem before_request_hit_parts (s : CachingMiddleware) (req : RequestInfo)
    (now : ℚ) (e : CacheEntry) (hget : pyUpper req.method = "GET")
    (hnodup : (s.cache.map Prod.fst).Nodup)
    (hfound : dictGet s.cache (_get_cache_key req) = some e)
    (hfresh : now - e.timestamp < s.ttl) :
    (before_request s req now).2.hits = s.hits + 1 ∧
    (before_request s req now).2.misses = s.misses ∧
    (before_request s req now).2.cache.getLast? =
      some (_get_cache_key req, e) := by
  rw [before_request_hit s req now e hget hnodup hfound hfresh]
  refine ⟨rfl, rfl, ?_⟩
  exact moveToEnd_getLast _ _ _ (sweep_preserves_fresh s now _ e hnodup hfound hfresh)

/-- Stale-find facts: the stale entry is deleted and the lookup counts as a
miss (whether the sweep or the stale-hit branch deletes it). -/
theorem before_request_stale (s : CachingMiddleware) (req : RequestInfo)
    (now : ℚ) (e : CacheEntry) (hget : pyUpper req.method = "GET")
    (hnodup : (s.cache.map Prod.fst).Nodup)
    (hfound : dictGet s.cache (_get_cache_key req) = some e)
    (hstale : s.ttl ≤ now - e.timestamp) :
    dictGet (before_request s req now).2.cache (_get_cache_key req) = none ∧
    (before_request s req now).2.misses = s.misses + 1 ∧
    (before_request s req now).2.hits = s.hits := by
  rw [before_request_eq s req now hget]
  by_cases hmod : (s.hits + s.misses) % 100 = 0
  · simp only [sweep_removes_stale s now _ e hnodup hfound hstale hmod]
    exact ⟨trivial, trivial, trivial⟩
  · have hsw : sweepApplied s now = s.cache := if_neg hmod
    rw [hsw]
    simp only [hfound]
    rw [if_neg (not_lt.mpr hstale)]
    refine ⟨?_, rfl, rfl⟩
    exact dictGet_dictDel_self _ hnodup _

/-- Absent-key facts: a plain miss; the counters move accordingly. -/
theorem before_request_absent (s : CachingMiddleware) (req : RequestInfo)
    (now : ℚ) (hget : pyUpper req.method = "GET")
    (hnone : dictGet s.cache (_get_cache_key req) = none) :
    (before_request s req now).2.misses = s.misses + 1 ∧
    (before_request s req now).2.hits = s.hits := by
  rw [before_request_eq s req now hget]
  simp only [sweep_preserves_absent s now _ hnone]
  exact ⟨trivial, trivial⟩

end Caching

/-- C6: a cache lookup is a hit exactly when the stored entry satisfies
`now - timestamp < ttl`; a lookup finding a stale entry (age ≥ ttl) leaves
the cache without that entry and counts as a miss; and a hit promotes the
entry to the most-recently-used position. -/
theorem cache_lookup_hit_iff_fresh (s : Caching.CachingMiddleware)
    (req : Caching.RequestInfo) (now : ℚ)
    (hget : pyUpper req.method = "GET")
    (hnodup : (s.cache.map Prod.fst).Nodup) :
    ((Caching.before_request s req now).2.hits = s.hits + 1 ↔
      ∃ e, dictGet s.cache (Caching._get_cache_key req) = some e ∧
        now - e.timestamp < s.ttl) ∧
    ((Caching.before_request s req now).2.misses = s.misses + 1 ↔
      ¬ ∃ e, dictGet s.cache (Caching._get_cache_key req) = some e ∧
        now - e.timestamp < s.ttl) ∧
    (∀ e, dictGet s.cache (Caching._get_cache_key req) = some e →
      s.ttl ≤ now - e.timestamp →
      dictGet (Caching.before_request s req now).2.cache
        (Caching._get_cache_key req) = none ∧
      (Caching.before_request s req now).2.misses = s.misses + 1) ∧
    (∀ e, dictGet s.cache (Caching._get_cache_key req) = some e →
      now - e.timestamp < s.ttl →
      (Caching.before_request s req now).2.hits = s.hits + 1 ∧
      (Caching.before_request s req now).2.cache.getLast? =
        some (Caching._get_cache_key req, e)) := by
  rcases hdg : dictGet s.cache (Caching._get_cache_key req) with _ | e
  · obtain ⟨hm, hh⟩ := Caching.before_request_absent s req now hget hdg
    refine ⟨?_, ?_, ?_, ?_⟩
    · rw [hh]
      constructor
      · intro habs
        omega
      · rintro ⟨e, he, -⟩
        cases he
    · rw [hm]
      constructor
      · rintro - ⟨e, he, -⟩
        cases he
      · intro _
        rfl
    · intro e he
      cases he
    · intro e he
      cases he
  · by_cases hfresh : now - e.timestamp < s.ttl
    · obtain ⟨hh, hm, hl⟩ :=
        Caching.before_request_hit_parts s req now e hget hnodup hdg hfresh
      refine ⟨?_, ?_, ?_, ?_⟩
      · rw [hh]
        exact iff_of_true rfl ⟨e, rfl, hfresh⟩
      · rw [hm]
        exact iff_of_false (by omega) (fun hn => hn ⟨e, rfl, hfresh⟩)
      · intro e' he' hstale
        cases he'
        exact absurd hstale (not_le.mpr hfresh)
      · intro e' he' _
        cases he'
        exact ⟨hh, hl⟩
    · have hstale : s.ttl ≤ now - e.timestamp := not_lt.mp hfresh
      obtain ⟨hnone, hm, hh⟩ :=
        Caching.before_request_stale s req now e hget hnodup hdg hstale
      refine ⟨?_, ?_, ?_, ?_⟩
      · rw [hh]
        refine iff_of_false (by omega) ?_
        rintro ⟨e', he', hf'⟩
        cases he'
        exact hfresh hf'
      · rw [hm]
        refine iff_of_true rfl ?_
        rintro ⟨e', he', hf'⟩
        cases he'
        exact hfresh hf'
      · intro e' he' _
        cases he'
        exact ⟨hnone, hm⟩
      · intro e' he' hf'
        cases he'
        exact absurd hf' hfresh

/-- Witness for C6: an entry inserted at time 0 with `ttl = 1` is a hit at
time 1/2 (hit counter bumps to 1) and a miss at time 3/2, the miss removing
the stale entry. -/
theorem cache_lookup_hit_iff_fresh_witness :
    (Caching.before_request
        { cache := [("GET|u", ⟨⟨200, [], "ok", ⟨"GET", "u", [], none⟩⟩, 0⟩)],
          ttl := 1, misses := 5 }
        ⟨"GET", "u", [], none⟩ (1/2)).2.hits = 1 ∧
    dictGet (Caching.before_request
        { cache := [("GET|u", ⟨⟨200, [], "ok", ⟨"GET", "u", [], none⟩⟩, 0⟩)],
          ttl := 1, misses := 5 }
        ⟨"GET", "u", [], none⟩ (3/2)).2.cache "GET|u" = none ∧
    (Caching.before_request
        { cache := [("GET|u", ⟨⟨200, [], "ok", ⟨"GET", "u", [], none⟩⟩, 0⟩)],
          ttl := 1, misses := 5 }
        ⟨"GET", "u", [], none⟩ (3/2)).2.misses = 6 := by
  have h1 := (cache_lookup_hit_iff_fresh
      { cache := [("GET|u", ⟨⟨200, [], "ok", ⟨"GET", "u", [], none⟩⟩, 0⟩)],
        ttl := 1, misses := 5 }
      ⟨"GET", "u", [], none⟩ (1/2) (by decide) (by decide)).2.2.2
    ⟨⟨200, [], "ok", ⟨"GET", "u", [], none⟩⟩, 0⟩ (by decide)
    (by show (1 : ℚ)/2 - 0 < 1; norm_num)
  have h2 := (cache_lookup_hit_iff_fresh
      { cache := [("GET|u", ⟨⟨200, [], "ok", ⟨"GET", "u", [], none⟩⟩, 0⟩)],
        ttl := 1, misses := 5 }
      ⟨"GET", "u", [], none⟩ (3/2) (by decide) (by decide)).2.2.1
    ⟨⟨200, [], "ok", ⟨"GET", "u", [], none⟩⟩, 0⟩ (by decide)
    (by show (1 : ℚ) ≤ 3/2 - 0; norm_num)
  exact ⟨h1.1, h2.1, h2.2⟩

/-- C3 (amended): repeating an identical GET within the TTL IS a cache hit
(hit counter bumped, entry promoted), but `before_request` returns the
request unchanged — it never substitutes the cached response (the source
carries a TODO for that) — and the rotator invokes the transport again
unconditionally. -/
theorem cache_hit_does_not_serve_cached_response
    (s : Caching.CachingMiddleware) (req : Caching.RequestInfo) (now : ℚ)
    (transport : Caching.RequestInfo → Caching.ResponseInfo) (calls : Nat)
    (e : Caching.CacheEntry)
    (hget : pyUpper req.method = "GET")
    (hnodup : (s.cache.map Prod.fst).Nodup)
    (hfound : dictGet s.cache (Caching._get_cache_key req) = some e)
    (hfresh : now - e.timestamp < s.ttl) :
    (Caching.before_request s req now).1 = req ∧
    (Caching.before_request s req now).2.hits = s.hits + 1 ∧
    (Caching.attemptWithCache s req now transport calls).2.2 = calls + 1 := by
  refine ⟨Caching.before_request_fst s req now, ?_, rfl⟩
  exact (Caching.before_request_hit_parts s req now e hget hnodup hfound hfresh).1

/-- Witness for C3 (amended): a concrete fresh-entry state — the repeat
lookup is a hit yet the request passes through unchanged and the transport
call counter still increments. -/
theorem cache_hit_does_not_serve_witness :
    (Caching.before_request
        { cache := [("GET|u", ⟨⟨200, [], "ok", ⟨"GET", "u", [], none⟩⟩, 0⟩)] }
        ⟨"GET", "u", [], none⟩ 0).1 = ⟨"GET", "u", [], none⟩ ∧
    (Caching.before_request
        { cache := [("GET|u", ⟨⟨200, [], "ok", ⟨"GET", "u", [], none⟩⟩, 0⟩)] }
        ⟨"GET", "u", [], none⟩ 0).2.hits = 0 + 1 ∧
    (Caching.attemptWithCache
        { cache := [("GET|u", ⟨⟨200, [], "ok", ⟨"GET", "u", [], none⟩⟩, 0⟩)] }
        ⟨"GET", "u", [], none⟩ 0
        (fun _ => ⟨200, [], "ok", ⟨"GET", "u", [], none⟩⟩) 7).2.2 = 7 + 1 :=
  cache_hit_does_not_serve_cached_response
    { cache := [("GET|u", ⟨⟨200, [], "ok", ⟨"GET", "u", [], none⟩⟩, 0⟩)] }
    ⟨"GET", "u", [], none⟩ 0
    (fun _ => ⟨200, [], "ok", ⟨"GET", "u", [], none⟩⟩) 7
    ⟨⟨200, [], "ok", ⟨"GET", "u", [], none⟩⟩, 0⟩
    (by decide) (by decide) (by decide)
    (by show (0 : ℚ) - 0 < 300; norm_num)

/-- C3 (counterexample): caching a GET response and immediately repeating
the identical request is a cache hit (`hits = 1`), yet the transport has
been invoked twice — the hit does NOT prevent re-invoking
`session.request`, contrary to the claim. -/
theorem cache_hit_transport_reinvoked_cx :
    (Caching.attemptWithCache
        (Caching.attemptWithCache { cache := [] }
            ⟨"GET", "http://u", [], none⟩ 0
            (fun _ => ⟨200, [], "ok", ⟨"GET", "http://u", [], none⟩⟩) 0).2.1
        ⟨"GET", "http://u", [], none⟩ 0
        (fun _ => ⟨200, [], "ok", ⟨"GET", "http://u", [], none⟩⟩)
        (Caching.attemptWithCache { cache := [] }
            ⟨"GET", "http://u", [], none⟩ 0
            (fun _ => ⟨200, [], "ok", ⟨"GET", "http://u", [], none⟩⟩) 0).2.2).2.1.hits
      = 1 ∧
    (Caching.attemptWithCache
        (Caching.attemptWithCache { cache := [] }
            ⟨"GET", "http://u", [], none⟩ 0
            (fun _ => ⟨200, [], "ok", ⟨"GET", "http://u", [], none⟩⟩) 0).2.1
        ⟨"GET", "http://u", [], none⟩ 0
        (fun _ => ⟨200, [], "ok", ⟨"GET", "http://u", [], none⟩⟩)
        (Caching.attemptWithCache { cache := [] }
            ⟨"GET", "http://u", [], none⟩ 0
            (fun _ => ⟨200, [], "ok", ⟨"GET", "http://u", [], none⟩⟩) 0).2.2).2.2
      = 2 := by
  have h1 : Caching.attemptWithCache { cache := [] }
      ⟨"GET", "http://u", [], none⟩ 0
      (fun _ => ⟨200, [], "ok", ⟨"GET", "http://u", [], none⟩⟩) 0 =
      (⟨200, [], "ok", ⟨"GET", "http://u", [], none⟩⟩,
        { cache := [("GET|http://u",
            ⟨⟨200, [], "ok", ⟨"GET", "http://u", [], none⟩⟩, 0⟩)], misses := 1 },
        1) := rfl
  rw [h1]
  have h2 := Caching.before_request_hit
      { cache := [("GET|http://u",
          ⟨⟨200, [], "ok", ⟨"GET", "http://u", [], none⟩⟩, 0⟩)], misses := 1 }
      ⟨"GET", "http://u", [], none⟩ 0
      ⟨⟨200, [], "ok", ⟨"GET", "http://u", [], none⟩⟩, 0⟩
      (by decide) (by decide) (by decide)
      (by show (0 : ℚ) - 0 < 300; norm_num)
  dsimp only
  unfold Caching.attemptWithCache
  rw [h2]
  exact ⟨rfl, rfl⟩

namespace Caching

/-- The count-eviction loop is a no-op below the entry budget. -/
theorem evictWhileCount_of_lt (c : List (String × CacheEntry)) (m : Nat)
    (h : c.length < m) : evictWhileCount c m = c := by
  cases c with
  | nil => rfl
  | cons x t =>
      unfold evictWhileCount
      rw [if_neg (not_le.mpr h)]

/-- At exactly the entry budget, the count-eviction loop evicts exactly the
least-recently-used (head) entry. -/
theorem evictWhileCount_tail (c : List (String × CacheEntry)) (m : Nat)
    (hlen : c.length = m) (hm : 1 ≤ m) : evictWhileCount c m = c.tail := by
  cases c with
  | nil =>
      simp at hlen
      omega
  | cons x t =>
      unfold evictWhileCount
      rw [if_pos (le_of_eq hlen.symm)]
      exact evictWhileCount_of_lt t m (by simp at hlen; omega)

/-- The byte-budget loop is a no-op when the new response fits. -/
theorem evictWhileBytes_some (c : List (String × CacheEntry)) (size maxb : Nat)
    (h : _get_total_cache_size c + size ≤ maxb) :
    evictWhileBytes c size maxb = some c := by
  cases c with
  | nil =>
      have h0 : _get_total_cache_size ([] : List (String × CacheEntry)) = 0 := rfl
      rw [h0] at h
      unfold evictWhileBytes
      rw [if_neg (by omega)]
  | cons x t =>
      unfold evictWhileBytes
      rw [if_neg (not_lt.mpr h)]

/-- A response larger than the whole byte budget drives the loop through
EVERY entry — the cache is emptied and `none` (do not cache) returned. -/
theorem evictWhileBytes_none (size maxb : Nat) (h : maxb < size) :
    ∀ (c : List (String × CacheEntry)), evictWhileBytes c size maxb = none := by
  intro c
  induction c with
  | nil =>
      unfold evictWhileBytes
      rw [if_pos (by omega)]
  | cons x t ih =>
      unfold evictWhileBytes
      rw [if_pos (by
        have : 0 ≤ _get_total_cache_size (x :: t) := Nat.zero_le _
        omega)]
      exact ih

/-- Unfolding of `after_request` for an eligible, safe, NEW-key GET 2xx
response: evict by entry count, then by byte budget (possibly giving up
with an emptied cache), then insert at the most-recently-used tail. -/
theorem after_request_new_key_eq (s : CachingMiddleware) (resp : ResponseInfo)
    (now : ℚ)
    (hget : pyUpper resp.request_info.method = "GET")
    (hstatus : 200 ≤ resp.status_code ∧ resp.status_code < 300)
    (hsafe : _is_safe_to_cache s resp = true)
    (hnew : dictGet s.cache (_get_cache_key resp.request_info) = none) :
    after_request s resp now =
      match evictWhileBytes (evictWhileCount s.cache s.max_cache_size)
          (_get_response_size resp) s.max_cache_size_bytes with
      | none => (resp, { s with cache := [] })
      | some c2 =>
          (resp, { s with cache :=
              c2 ++ [(_get_cache_key resp.request_info, ⟨resp, now⟩)] }) := by
  have hc : (s.cache_only_get && decide (pyUpper resp.request_info.method ≠ "GET")) = false := by
    simp [hget]
  unfold after_request
  simp only [hc, Bool.false_eq_true, if_false, if_pos hstatus, hsafe,
    Bool.not_true, hnew, Option.isNone_none, if_true]

end Caching

/-- C7 (amended): inserting an eligible response under a NEW cache key into
a cache holding exactly `max_cache_size` entries evicts exactly the one
least-recently-used entry and appends the new entry most-recently-used
(provided the byte budget accommodates the result); but a response whose
size alone exceeds the total byte budget (while passing the per-response
cap) first evicts EVERY existing entry and is then not cached — an
eviction storm, not the claimed no-eviction behaviour. -/
theorem cache_admission_count_budget_and_oversize :
    (∀ (s : Caching.CachingMiddleware) (resp : Caching.ResponseInfo) (now : ℚ),
      pyUpper resp.request_info.method = "GET" →
      200 ≤ resp.status_code ∧ resp.status_code < 300 →
      Caching._is_safe_to_cache s resp = true →
      dictGet s.cache (Caching._get_cache_key resp.request_info) = none →
      s.cache.length = s.max_cache_size → 1 ≤ s.max_cache_size →
      Caching._get_total_cache_size s.cache.tail +
          Caching._get_response_size resp ≤ s.max_cache_size_bytes →
      (Caching.after_request s resp now).2.cache =
        s.cache.tail ++ [(Caching._get_cache_key resp.request_info, ⟨resp, now⟩)] ∧
      (Caching.after_request s resp now).2.cache.length = s.max_cache_size) ∧
    (∀ (s : Caching.CachingMiddleware) (resp : Caching.ResponseInfo) (now : ℚ),
      pyUpper resp.request_info.method = "GET" →
      200 ≤ resp.status_code ∧ resp.status_code < 300 →
      Caching._is_safe_to_cache s resp = true →
      dictGet s.cache (Caching._get_cache_key resp.request_info) = none →
      s.max_cache_size_bytes < Caching._get_response_size resp →
      (Caching.after_request s resp now).2.cache = []) := by
  constructor
  · intro s resp now hget hstatus hsafe hnew hlen hm hbytes
    rw [Caching.after_request_new_key_eq s resp now hget hstatus hsafe hnew]
    rw [Caching.evictWhileCount_tail s.cache s.max_cache_size hlen hm]
    rw [Caching.evictWhileBytes_some s.cache.tail _ _ hbytes]
    refine ⟨rfl, ?_⟩
    show (s.cache.tail ++ [_]).length = s.max_cache_size
    rw [List.length_append]
    cases hc : s.cache with
    | nil => rw [hc] at hlen; simp at hlen; omega
    | cons x t =>
        rw [hc] at hlen
        simp at hlen ⊢
        omega
  · intro s resp now hget hstatus hsafe hnew hover
    rw [Caching.after_request_new_key_eq s resp now hget hstatus hsafe hnew]
    rw [Caching.evictWhileBytes_none _ _ hover]

/-- Witness for C7 (amended): a one-entry cache with `max_cache_size = 1` —
inserting a second, new-key response evicts exactly the old entry and
keeps the pool at the budget. -/
theorem cache_admission_count_budget_witness :
    (Caching.after_request
        { cache := [("GET|http://a", ⟨⟨200, [], "aa", ⟨"GET", "http://a", [], none⟩⟩, 0⟩)],
          max_cache_size := 1 }
        ⟨200, [], "bb", ⟨"GET", "http://b", [], none⟩⟩ 0).2.cache =
      [("GET|http://b", ⟨⟨200, [], "bb", ⟨"GET", "http://b", [], none⟩⟩, 0⟩)] := by
  have h := (cache_admission_count_budget_and_oversize.1
      { cache := [("GET|http://a", ⟨⟨200, [], "aa", ⟨"GET", "http://a", [], none⟩⟩, 0⟩)],
        max_cache_size := 1 }
      ⟨200, [], "bb", ⟨"GET", "http://b", [], none⟩⟩ 0
      (by decide) (by decide) (by decide) (by decide) (by decide) (by decide)
      (by decide)).1
  rw [h]
  rfl

/-- C7 (counterexample): a response of size 60 with byte budget 50 and
per-response cap 1000 — the insertion attempt evicts BOTH existing entries
(the cache ends empty) and still does not cache the response, refuting "is
never cached and causes no eviction of every other entry being kept". -/
theorem oversize_response_eviction_storm_cx :
    (Caching.after_request
        { cache :=
            [("GET|http://a", ⟨⟨200, [], "aaaaaaaaaa", ⟨"GET", "http://a", [], none⟩⟩, 0⟩),
             ("GET|http://b", ⟨⟨200, [], "bbbbbbbbbbbb", ⟨"GET", "http://b", [], none⟩⟩, 0⟩)],
          max_cache_size := 10, max_cache_size_bytes := 50,
          max_cacheable_size := 1000 }
        ⟨200, [], String.mk (List.replicate 60 'c'),
          ⟨"GET", "http://c", [], none⟩⟩ 0).2.cache = [] ∧
    ({ cache :=
          [("GET|http://a", ⟨⟨200, [], "aaaaaaaaaa", ⟨"GET", "http://a", [], none⟩⟩, 0⟩),
           ("GET|http://b", ⟨⟨200, [], "bbbbbbbbbbbb", ⟨"GET", "http://b", [], none⟩⟩, 0⟩)],
        max_cache_size := 10, max_cache_size_bytes := 50,
        max_cacheable_size := 1000 } : Caching.CachingMiddleware).cache.length = 2 :=
  ⟨rfl, rfl⟩
